import Mathlib

/-!
A shallow embedding of the CPU-utilization sampler of
`src/shippingservice/test_cpu_calculation.py`.

The two functions under study are `read_proc_stat` (snapshot acquisition:
parse the first line of `/proc/stat`) and `calculate_cpu_usage`
(delta-based utilization percentage from two snapshots).

Modelling choices:
* The statistics source is modelled as `Option String`: `none` when the
  source is missing or unreadable (Python's `open`/`readline` raising,
  swallowed by the `try`/`except`), `some line` for the first line read.
* Python string helpers (`str.strip`, `str.startswith`, `str.split` with
  no argument, the `int` constructor) are embedded as executable Lean
  functions over `String.data`.  Whitespace is the ASCII set recognised by
  `Char.isWhitespace`; `int` is modelled on optionally-signed ASCII digit
  strings (underscore digit separators and non-ASCII digits are not
  modelled — no input relevant to the claims uses them).
* Python float arithmetic is modelled with exact rationals `ℚ`; every
  numeric value appearing in the claims (`75.0`, `0.0`, ratios of small
  integers times `100.0`) is exactly representable in binary64, so `ℚ`
  and IEEE arithmetic agree on them.
* Python exceptions are modelled by `Option`: `none` is the `None` result
  the `except` clause produces.
-/

/-- A parsed `/proc/stat` aggregate-CPU snapshot: the eight `int` fields
the Python dict holds.  Fields are `Int` because Python's `int` parses
signed literals. -/
structure CpuStats where
  user : Int
  nice : Int
  system : Int
  idle : Int
  iowait : Int
  irq : Int
  softirq : Int
  steal : Int
deriving DecidableEq, Repr

/-- Python `str.strip()`: drop leading and trailing whitespace. -/
def pyStrip (s : String) : String :=
  ⟨((s.data.dropWhile Char.isWhitespace).reverse.dropWhile Char.isWhitespace).reverse⟩

/-- Python `str.startswith(pre)`. -/
def pyStartswith (s pre : String) : Bool :=
  pre.data.isPrefixOf s.data

/-- Helper for `pySplit`: walk the characters, accumulating the current
(reversed) field; whitespace ends a field, runs of whitespace produce no
empty fields. -/
def pySplitAux : List Char → List Char → List String
  | [], acc => if acc.isEmpty then [] else [⟨acc.reverse⟩]
  | c :: cs, acc =>
    if c.isWhitespace then
      if acc.isEmpty then pySplitAux cs [] else ⟨acc.reverse⟩ :: pySplitAux cs []
    else
      pySplitAux cs (c :: acc)

/-- Python `str.split()` with no argument: split on runs of whitespace,
never yielding empty strings. -/
def pySplit (s : String) : List String :=
  pySplitAux s.data []

/-- Parse a nonempty all-digit character list as a natural number. -/
def digitsToNat (l : List Char) : Option Nat :=
  if l.isEmpty then none
  else if l.all Char.isDigit then
    some (l.foldl (fun n c => 10 * n + (c.toNat - 48)) 0)
  else none

/-- Python `int(s)` on a whitespace-free token: an optional sign followed
by a nonempty digit string; anything else raises `ValueError`, modelled
as `none`. -/
def parsePyInt (s : String) : Option Int :=
  match s.data with
  | [] => none
  | c :: cs =>
    if c = '-' then (digitsToNat cs).map (fun n : Nat => -(n : Int))
    else if c = '+' then (digitsToNat cs).map (fun n : Nat => (n : Int))
    else (digitsToNat (c :: cs)).map (fun n : Nat => (n : Int))

/-- One `int(parts[i])` step of the Python dict literal: `none` when the
index is out of range or the field is not an integer literal. -/
def statField (parts : List String) (i : Nat) : Option Int :=
  parts[i]? >>= parsePyInt

/-- `read_proc_stat()`: read the first line of `/proc/stat` (modelled as
the `Option String` argument), strip it, require the `"cpu "` prefix,
split on whitespace, require at least 9 tokens (`cpu` plus 8 fields), and
parse fields 1–8 as integers.  Any failure — including an exception from
`int` — yields `none`, exactly as the Python `try`/`except` returns
`None`. -/
def read_proc_stat : Option String → Option CpuStats
  | none => none
  | some line =>
  let first_line := pyStrip line
  if pyStartswith first_line "cpu " then
    let parts := pySplit first_line
    if parts.length < 9 then
      none
    else do
      let user ← statField parts 1
      let nice ← statField parts 2
      let system ← statField parts 3
      let idle ← statField parts 4
      let iowait ← statField parts 5
      let irq ← statField parts 6
      let softirq ← statField parts 7
      let steal ← statField parts 8
      pure ⟨user, nice, system, idle, iowait, irq, softirq, steal⟩
  else
    none

/-- `sum(stats.values())`: the total of all eight categories. -/
def total (s : CpuStats) : Int :=
  s.user + s.nice + s.system + s.idle + s.iowait + s.irq + s.softirq + s.steal

/-- `idle1 = stats1['idle'] + stats1['iowait']`. -/
def cpu_idle (s : CpuStats) : Int :=
  s.idle + s.iowait

/-- `active1 = total1 - idle1`. -/
def cpu_active (s : CpuStats) : Int :=
  total s - cpu_idle s

/-- `calculate_cpu_usage(stats1, stats2)`: `None` if either snapshot is
`None`; `0.0` when the total counters made no progress; otherwise the raw
ratio `(active_diff / total_diff) * 100.0`, with no clamping. -/
def calculate_cpu_usage (stats1 stats2 : Option CpuStats) : Option ℚ :=
  match stats1, stats2 with
  | some s1, some s2 =>
    let total_diff := total s2 - total s1
    let active_diff := cpu_active s2 - cpu_active s1
    if total_diff = 0 then some 0
    else some ((active_diff : ℚ) / (total_diff : ℚ) * 100)
  | _, _ => none

/-- Scenario A prior snapshot from the spec. -/
def scenarioAPrior : CpuStats := ⟨100, 0, 50, 800, 50, 0, 0, 0⟩

/-- Scenario A current snapshot: prior with user+50, system+25, idle+25. -/
def scenarioACurrent : CpuStats := ⟨150, 0, 75, 825, 50, 0, 0, 0⟩

/-- Inversion of a successful field parse: the token exists and parses. -/
theorem statField_eq_some (parts : List String) (i : Nat) (v : Int)
    (h : statField parts i = some v) :
    ∃ p, parts[i]? = some p ∧ parsePyInt p = some v := by
  rw [statField, Option.bind_eq_bind, Option.bind_eq_some] at h
  exact h

/-- Introduction rule for a successful field parse. -/
theorem statField_intro (parts : List String) (i : Nat) (p : String) (v : Int)
    (hp : parts[i]? = some p) (hv : parsePyInt p = some v) :
    statField parts i = some v := by
  rw [statField, hp]
  exact hv

/-- Success introduction for `read_proc_stat`: marker present, at least 9
tokens, and all eight fields parse. -/
theorem read_some_intro (line : String)
    (hpre : pyStartswith (pyStrip line) "cpu " = true)
    (hlen : 9 ≤ (pySplit (pyStrip line)).length)
    (v1 v2 v3 v4 v5 v6 v7 v8 : Int)
    (h1 : statField (pySplit (pyStrip line)) 1 = some v1)
    (h2 : statField (pySplit (pyStrip line)) 2 = some v2)
    (h3 : statField (pySplit (pyStrip line)) 3 = some v3)
    (h4 : statField (pySplit (pyStrip line)) 4 = some v4)
    (h5 : statField (pySplit (pyStrip line)) 5 = some v5)
    (h6 : statField (pySplit (pyStrip line)) 6 = some v6)
    (h7 : statField (pySplit (pyStrip line)) 7 = some v7)
    (h8 : statField (pySplit (pyStrip line)) 8 = some v8) :
    read_proc_stat (some line) = some ⟨v1, v2, v3, v4, v5, v6, v7, v8⟩ := by
  have hlen' : ¬ (pySplit (pyStrip line)).length < 9 := by omega
  simp [read_proc_stat, hpre, hlen', h1, h2, h3, h4, h5, h6, h7, h8]

/-- Success inversion for `read_proc_stat`: a returned snapshot means the
marker matched, at least 9 tokens were found, and each of the eight
fields parsed to the corresponding snapshot component. -/
theorem read_some_elim (line : String) (s : CpuStats)
    (h : read_proc_stat (some line) = some s) :
    pyStartswith (pyStrip line) "cpu " = true
    ∧ 9 ≤ (pySplit (pyStrip line)).length
    ∧ statField (pySplit (pyStrip line)) 1 = some s.user
    ∧ statField (pySplit (pyStrip line)) 2 = some s.nice
    ∧ statField (pySplit (pyStrip line)) 3 = some s.system
    ∧ statField (pySplit (pyStrip line)) 4 = some s.idle
    ∧ statField (pySplit (pyStrip line)) 5 = some s.iowait
    ∧ statField (pySplit (pyStrip line)) 6 = some s.irq
    ∧ statField (pySplit (pyStrip line)) 7 = some s.softirq
    ∧ statField (pySplit (pyStrip line)) 8 = some s.steal := by
  by_cases hpre : pyStartswith (pyStrip line) "cpu " = true
  · by_cases hlen : (pySplit (pyStrip line)).length < 9
    · simp [read_proc_stat, hpre, hlen] at h
    · simp only [read_proc_stat] at h
      rw [if_pos hpre, if_neg hlen] at h
      simp only [Option.bind_eq_bind, Option.bind_eq_some, Option.pure_def,
        Option.some.injEq] at h
      obtain ⟨a1, e1, a2, e2, a3, e3, a4, e4, a5, e5, a6, e6, a7, e7, a8, e8, hs⟩ := h
      subst hs
      exact ⟨hpre, by omega, e1, e2, e3, e4, e5, e6, e7, e8⟩
  · simp [read_proc_stat, hpre] at h

/-- A stripped line that starts with `cpu0` cannot also start with
`"cpu "`: the fourth character differs. -/
theorem pyStartswith_cpu0_not_space (s : String)
    (h : pyStartswith s "cpu0" = true) : pyStartswith s "cpu " = false := by
  rw [pyStartswith, List.isPrefixOf_iff_prefix] at h
  rw [pyStartswith, Bool.eq_false_iff]
  intro hc
  rw [List.isPrefixOf_iff_prefix] at hc
  have hle := List.prefix_of_prefix_length_le h hc (by decide)
  have heq := List.IsPrefix.eq_of_length hle (by decide)
  exact absurd heq (by decide)

/-- A nonempty all-digit token parses as a non-negative integer. -/
theorem parsePyInt_digits (p : String) (hne : p.data ≠ [])
    (hd : p.data.all Char.isDigit = true) :
    ∃ v : Int, parsePyInt p = some v ∧ 0 ≤ v := by
  cases hp : p.data with
  | nil => exact absurd hp hne
  | cons c cs =>
    rw [hp] at hd
    have hc : c.isDigit = true := by
      simp only [List.all_cons, Bool.and_eq_true] at hd
      exact hd.1
    have hcm : ¬ c = '-' := by
      intro e; rw [e] at hc; exact absurd hc (by decide)
    have hcp : ¬ c = '+' := by
      intro e; rw [e] at hc; exact absurd hc (by decide)
    have hemp : (c :: cs).isEmpty = false := rfl
    simp only [parsePyInt, hp, if_neg hcm, if_neg hcp, digitsToNat, hemp, hd,
      Bool.false_eq_true, if_false, if_true, Option.map_some]
    exact ⟨_, rfl, Int.natCast_nonneg _⟩

/-- Claim C1: for the spec's scenario-A snapshot pair
(prior `{user:100, nice:0, system:50, idle:800, iowait:50, irq:0,
softirq:0, steal:0}`, current the same with user+50, system+25, idle+25),
`calculate_cpu_usage` returns exactly `75.0`. -/
theorem calculate_cpu_usage_scenarioA :
    calculate_cpu_usage (some scenarioAPrior) (some scenarioACurrent) = some 75 := by
  have h1 : total scenarioACurrent - total scenarioAPrior = 100 := by decide
  have h2 : cpu_active scenarioACurrent - cpu_active scenarioAPrior = 75 := by decide
  simp only [calculate_cpu_usage, h1, h2]
  norm_num

/-- Claim C2: whenever the two snapshots have equal totals — in
particular when they are identical — `calculate_cpu_usage` returns
exactly `0.0` (the zero-division guard). -/
theorem calculate_cpu_usage_eq_zero_of_total_eq (s1 s2 : CpuStats)
    (h : total s1 = total s2) :
    calculate_cpu_usage (some s1) (some s2) = some 0 := by
  simp [calculate_cpu_usage, h]

/-- Witness for claim C2 at a concrete identical pair. -/
theorem calculate_cpu_usage_eq_zero_of_total_eq_witness :
    calculate_cpu_usage (some scenarioAPrior) (some scenarioAPrior) = some 0 :=
  calculate_cpu_usage_eq_zero_of_total_eq scenarioAPrior scenarioAPrior rfl

/-- Claim C3: `read_proc_stat` is total and never returns a half-filled
snapshot: a missing source gives `none`; a line without the aggregate
marker gives `none`; fewer than 8 fields after the marker give `none`;
a returned snapshot means every one of the 8 fields existed and parsed
as an integer (so an unparseable field forces `none`); and the result is
always either `none` or a fully populated snapshot. -/
theorem read_proc_stat_total_result :
    (read_proc_stat none = none)
    ∧ (∀ line, pyStartswith (pyStrip line) "cpu " = false →
        read_proc_stat (some line) = none)
    ∧ (∀ line, (pySplit (pyStrip line)).length < 9 →
        read_proc_stat (some line) = none)
    ∧ (∀ line s, read_proc_stat (some line) = some s →
        ∀ i, 1 ≤ i → i ≤ 8 → ∃ p v, (pySplit (pyStrip line))[i]? = some p ∧
          parsePyInt p = some v)
    ∧ (∀ src, read_proc_stat src = none ∨ ∃ s, read_proc_stat src = some s) := by
  refine ⟨rfl, ?_, ?_, ?_, ?_⟩
  · intro line hpre
    simp [read_proc_stat, hpre]
  · intro line hlen
    by_cases hpre : pyStartswith (pyStrip line) "cpu " = true
    · simp [read_proc_stat, hpre, hlen]
    · simp [read_proc_stat, hpre]
  · intro line s h i hi1 hi8
    obtain ⟨_, _, e1, e2, e3, e4, e5, e6, e7, e8⟩ := read_some_elim line s h
    interval_cases i
    · obtain ⟨p, hp, hv⟩ := statField_eq_some _ _ _ e1; exact ⟨p, _, hp, hv⟩
    · obtain ⟨p, hp, hv⟩ := statField_eq_some _ _ _ e2; exact ⟨p, _, hp, hv⟩
    · obtain ⟨p, hp, hv⟩ := statField_eq_some _ _ _ e3; exact ⟨p, _, hp, hv⟩
    · obtain ⟨p, hp, hv⟩ := statField_eq_some _ _ _ e4; exact ⟨p, _, hp, hv⟩
    · obtain ⟨p, hp, hv⟩ := statField_eq_some _ _ _ e5; exact ⟨p, _, hp, hv⟩
    · obtain ⟨p, hp, hv⟩ := statField_eq_some _ _ _ e6; exact ⟨p, _, hp, hv⟩
    · obtain ⟨p, hp, hv⟩ := statField_eq_some _ _ _ e7; exact ⟨p, _, hp, hv⟩
    · obtain ⟨p, hp, hv⟩ := statField_eq_some _ _ _ e8; exact ⟨p, _, hp, hv⟩
  · intro src
    cases h : read_proc_stat src with
    | none => exact Or.inl rfl
    | some s => exact Or.inr ⟨s, rfl⟩

/-- Witness for claim C3: a line with too few fields is rejected. -/
theorem read_proc_stat_total_result_witness :
    read_proc_stat (some "cpu 1 2 3") = none :=
  read_proc_stat_total_result.2.2.1 "cpu 1 2 3" (by decide)

/-- Claim C4: if either snapshot is absent (`None`),
`calculate_cpu_usage` returns `None` — never the numeric `0.0`. -/
theorem calculate_cpu_usage_none_of_absent :
    ∀ x : Option CpuStats,
      calculate_cpu_usage none x = none ∧ calculate_cpu_usage x none = none := by
  intro x
  cases x <;> exact ⟨rfl, rfl⟩

/-- Counterexample to claim C5 as stated: `"cpu"` followed by a TAB and
eight integer fields is a line of the claimed successful shape (`cpu`,
whitespace, 8 integer fields), yet the code's `startswith('cpu ')` test
demands a space and the read returns `None`. -/
theorem read_proc_stat_tab_rejected :
    read_proc_stat (some "cpu\t1 2 3 4 5 6 7 8") = none := by decide

/-- Claim C5 (amended): a first line whose stripped form starts with the
literal `"cpu "` — the marker followed by a SPACE character, not arbitrary
whitespace — and that carries at least 8 non-negative integer (all-digit)
fields after the marker is accepted, and any line whose stripped form
begins with the per-core marker `cpu0` is rejected. -/
theorem read_proc_stat_space_marker :
    (∀ line, pyStartswith (pyStrip line) "cpu " = true →
      9 ≤ (pySplit (pyStrip line)).length →
      (∀ i, 1 ≤ i → i ≤ 8 → ∃ p, (pySplit (pyStrip line))[i]? = some p ∧
        p.data ≠ [] ∧ p.data.all Char.isDigit = true) →
      ∃ s, read_proc_stat (some line) = some s)
    ∧ (∀ line, pyStartswith (pyStrip line) "cpu0" = true →
      read_proc_stat (some line) = none) := by
  constructor
  · intro line hpre hlen hf
    obtain ⟨p1, hp1, hne1, hd1⟩ := hf 1 (by omega) (by omega)
    obtain ⟨p2, hp2, hne2, hd2⟩ := hf 2 (by omega) (by omega)
    obtain ⟨p3, hp3, hne3, hd3⟩ := hf 3 (by omega) (by omega)
    obtain ⟨p4, hp4, hne4, hd4⟩ := hf 4 (by omega) (by omega)
    obtain ⟨p5, hp5, hne5, hd5⟩ := hf 5 (by omega) (by omega)
    obtain ⟨p6, hp6, hne6, hd6⟩ := hf 6 (by omega) (by omega)
    obtain ⟨p7, hp7, hne7, hd7⟩ := hf 7 (by omega) (by omega)
    obtain ⟨p8, hp8, hne8, hd8⟩ := hf 8 (by omega) (by omega)
    obtain ⟨v1, hv1, _⟩ := parsePyInt_digits p1 hne1 hd1
    obtain ⟨v2, hv2, _⟩ := parsePyInt_digits p2 hne2 hd2
    obtain ⟨v3, hv3, _⟩ := parsePyInt_digits p3 hne3 hd3
    obtain ⟨v4, hv4, _⟩ := parsePyInt_digits p4 hne4 hd4
    obtain ⟨v5, hv5, _⟩ := parsePyInt_digits p5 hne5 hd5
    obtain ⟨v6, hv6, _⟩ := parsePyInt_digits p6 hne6 hd6
    obtain ⟨v7, hv7, _⟩ := parsePyInt_digits p7 hne7 hd7
    obtain ⟨v8, hv8, _⟩ := parsePyInt_digits p8 hne8 hd8
    exact ⟨_, read_some_intro line hpre hlen v1 v2 v3 v4 v5 v6 v7 v8
      (statField_intro _ _ _ _ hp1 hv1) (statField_intro _ _ _ _ hp2 hv2)
      (statField_intro _ _ _ _ hp3 hv3) (statField_intro _ _ _ _ hp4 hv4)
      (statField_intro _ _ _ _ hp5 hv5) (statField_intro _ _ _ _ hp6 hv6)
      (statField_intro _ _ _ _ hp7 hv7) (statField_intro _ _ _ _ hp8 hv8)⟩
  · intro line h0
    have hns := pyStartswith_cpu0_not_space _ h0
    simp [read_proc_stat, hns]

/-- Witness for the amended claim C5 at a concrete well-formed line. -/
theorem read_proc_stat_space_marker_witness :
    ∃ s, read_proc_stat (some "cpu 10 20 30 40 50 60 70 80") = some s :=
  read_proc_stat_space_marker.1 "cpu 10 20 30 40 50 60 70 80" (by decide) (by decide)
    (by intro i h1 h8; interval_cases i <;> exact ⟨_, rfl, by decide, by decide⟩)

/-- Counterexample to claim C6 as stated: a marker line whose third field
is the negative literal `-5` is NOT rejected; Python's `int` parses the
sign and the snapshot is returned with the negative value inside. -/
theorem read_proc_stat_negative_field :
    read_proc_stat (some "cpu 100 0 -5 800 50 0 0 0")
      = some ⟨100, 0, -5, 800, 50, 0, 0, 0⟩ := by decide

/-- Claim C6 (amended): `read_proc_stat` parses each field with Python
`int` semantics, which accept signed literals: a `-`-prefixed digit
string parses to the (non-positive) negated value, and whatever signed
values the eight fields parse to flow unchanged into the returned
snapshot instead of producing `Unavailable`. -/
theorem read_proc_stat_signed_fields :
    (∀ ds : List Char, ds ≠ [] → ds.all Char.isDigit = true →
      ∃ n : Nat, parsePyInt ⟨'-' :: ds⟩ = some (-(n : Int)))
    ∧ (∀ line (v1 v2 v3 v4 v5 v6 v7 v8 : Int),
        pyStartswith (pyStrip line) "cpu " = true →
        9 ≤ (pySplit (pyStrip line)).length →
        statField (pySplit (pyStrip line)) 1 = some v1 →
        statField (pySplit (pyStrip line)) 2 = some v2 →
        statField (pySplit (pyStrip line)) 3 = some v3 →
        statField (pySplit (pyStrip line)) 4 = some v4 →
        statField (pySplit (pyStrip line)) 5 = some v5 →
        statField (pySplit (pyStrip line)) 6 = some v6 →
        statField (pySplit (pyStrip line)) 7 = some v7 →
        statField (pySplit (pyStrip line)) 8 = some v8 →
        read_proc_stat (some line) = some ⟨v1, v2, v3, v4, v5, v6, v7, v8⟩) := by
  constructor
  · intro ds hne hd
    have hemp : ds.isEmpty = false := by
      cases ds with
      | nil => exact absurd rfl hne
      | cons c cs => rfl
    refine ⟨ds.foldl (fun n c => 10 * n + (c.toNat - 48)) 0, ?_⟩
    simp only [parsePyInt, if_pos rfl, digitsToNat, hemp, hd, Bool.false_eq_true,
      if_false, if_true]
    rfl
  · intro line v1 v2 v3 v4 v5 v6 v7 v8 hpre hlen h1 h2 h3 h4 h5 h6 h7 h8
    exact read_some_intro line hpre hlen v1 v2 v3 v4 v5 v6 v7 v8 h1 h2 h3 h4 h5 h6 h7 h8

/-- Witness for the amended claim C6: the negative third field reaches
the snapshot unchanged. -/
theorem read_proc_stat_signed_fields_witness :
    read_proc_stat (some "cpu 1 2 -5 4 5 6 7 8") = some ⟨1, 2, -5, 4, 5, 6, 7, 8⟩ :=
  read_proc_stat_signed_fields.2 "cpu 1 2 -5 4 5 6 7 8" 1 2 (-5) 4 5 6 7 8
    (by decide) (by decide) (by decide) (by decide) (by decide) (by decide)
    (by decide) (by decide) (by decide) (by decide)

/-- Claim C7: a well-formed first line with more than 8 fields after the
marker (at least 10 tokens in all) still succeeds, and the snapshot is
built from exactly the first 8 fields — the conclusion does not depend on
any later token. -/
theorem read_proc_stat_trailing_fields (line : String)
    (v1 v2 v3 v4 v5 v6 v7 v8 : Int)
    (hpre : pyStartswith (pyStrip line) "cpu " = true)
    (hlen : 10 ≤ (pySplit (pyStrip line)).length)
    (h1 : statField (pySplit (pyStrip line)) 1 = some v1)
    (h2 : statField (pySplit (pyStrip line)) 2 = some v2)
    (h3 : statField (pySplit (pyStrip line)) 3 = some v3)
    (h4 : statField (pySplit (pyStrip line)) 4 = some v4)
    (h5 : statField (pySplit (pyStrip line)) 5 = some v5)
    (h6 : statField (pySplit (pyStrip line)) 6 = some v6)
    (h7 : statField (pySplit (pyStrip line)) 7 = some v7)
    (h8 : statField (pySplit (pyStrip line)) 8 = some v8) :
    read_proc_stat (some line) = some ⟨v1, v2, v3, v4, v5, v6, v7, v8⟩ :=
  read_some_intro line hpre (by omega) v1 v2 v3 v4 v5 v6 v7 v8 h1 h2 h3 h4 h5 h6 h7 h8

/-- Witness for claim C7: two trailing guest-time fields are ignored. -/
theorem read_proc_stat_trailing_fields_witness :
    read_proc_stat (some "cpu 1 2 3 4 5 6 7 8 99 100") = some ⟨1, 2, 3, 4, 5, 6, 7, 8⟩ :=
  read_proc_stat_trailing_fields "cpu 1 2 3 4 5 6 7 8 99 100" 1 2 3 4 5 6 7 8
    (by decide) (by decide) (by decide) (by decide) (by decide) (by decide)
    (by decide) (by decide) (by decide) (by decide)

/-- Claim C8: `calculate_cpu_usage` performs no clamping or regression
detection: there is a pair of present snapshots with regressed totals
(current total below prior total) whose raw
`(active_delta / total_delta) * 100.0` value lies outside `[0, 100]` and
is returned unchanged. -/
theorem calculate_cpu_usage_no_clamp :
    ∃ (s1 s2 : CpuStats) (v : ℚ),
      calculate_cpu_usage (some s1) (some s2) = some v
      ∧ total s2 < total s1 ∧ (v < 0 ∨ 100 < v) := by
  refine ⟨⟨100, 0, 0, 100, 0, 0, 0, 0⟩, ⟨150, 0, 0, 0, 0, 0, 0, 0⟩, -100, ?_, by decide,
    Or.inl (by norm_num)⟩
  have h1 : total ⟨150, 0, 0, 0, 0, 0, 0, 0⟩ - total ⟨100, 0, 0, 100, 0, 0, 0, 0⟩ = -50 := by
    decide
  have h2 : cpu_active ⟨150, 0, 0, 0, 0, 0, 0, 0⟩ - cpu_active ⟨100, 0, 0, 100, 0, 0, 0, 0⟩
      = 50 := by decide
  simp only [calculate_cpu_usage, h1, h2]
  norm_num

/-- Claim C9: utilization is linear in the active delta for a fixed
positive total delta: a second snapshot pair with the same total delta
but doubled active delta yields exactly double the utilization. -/
theorem calculate_cpu_usage_linear (s1 s2 t1 t2 : CpuStats) (v : ℚ)
    (hT : total t2 - total t1 = total s2 - total s1)
    (hpos : 0 < total s2 - total s1)
    (hA : cpu_active t2 - cpu_active t1 = 2 * (cpu_active s2 - cpu_active s1))
    (hv : calculate_cpu_usage (some s1) (some s2) = some v) :
    calculate_cpu_usage (some t1) (some t2) = some (2 * v) := by
  have hne : total s2 - total s1 ≠ 0 := ne_of_gt hpos
  simp only [calculate_cpu_usage, if_neg hne, Option.some.injEq] at hv
  simp only [calculate_cpu_usage, hT, if_neg hne, hA, Option.some.injEq]
  rw [← hv]
  push_cast
  ring

/-- Witness for claim C9: doubling the active delta 25 → 50 over a fixed
total delta of 100 doubles the utilization 25 → 50. -/
theorem calculate_cpu_usage_linear_witness :
    calculate_cpu_usage (some ⟨0, 0, 0, 0, 0, 0, 0, 0⟩) (some ⟨50, 0, 0, 50, 0, 0, 0, 0⟩)
      = some (2 * 25) := by
  refine calculate_cpu_usage_linear ⟨0, 0, 0, 0, 0, 0, 0, 0⟩ ⟨25, 0, 0, 75, 0, 0, 0, 0⟩
    ⟨0, 0, 0, 0, 0, 0, 0, 0⟩ ⟨50, 0, 0, 50, 0, 0, 0, 0⟩ 25 (by decide) (by decide)
    (by decide) ?_
  have h1 : total ⟨25, 0, 0, 75, 0, 0, 0, 0⟩ - total ⟨0, 0, 0, 0, 0, 0, 0, 0⟩ = 100 := by
    decide
  have h2 : cpu_active ⟨25, 0, 0, 75, 0, 0, 0, 0⟩ - cpu_active ⟨0, 0, 0, 0, 0, 0, 0, 0⟩
      = 25 := by decide
  simp only [calculate_cpu_usage, h1, h2]
  norm_num

/-- Claim C10: when every one of the eight counters is monotone (current
at least prior), the returned utilization exists and lies in the closed
range `[0, 100]`. -/
theorem calculate_cpu_usage_bounded (s1 s2 : CpuStats)
    (hu : s1.user ≤ s2.user) (hn : s1.nice ≤ s2.nice) (hs : s1.system ≤ s2.system)
    (hi : s1.idle ≤ s2.idle) (hw : s1.iowait ≤ s2.iowait) (hq : s1.irq ≤ s2.irq)
    (hf : s1.softirq ≤ s2.softirq) (ht : s1.steal ≤ s2.steal) :
    ∃ v : ℚ, calculate_cpu_usage (some s1) (some s2) = some v ∧ 0 ≤ v ∧ v ≤ 100 := by
  by_cases h0 : total s2 - total s1 = 0
  · exact ⟨0, by simp [calculate_cpu_usage, h0], le_refl 0, by norm_num⟩
  · have hT : 0 < total s2 - total s1 := by
      simp only [total] at h0 ⊢
      omega
    have hA0 : 0 ≤ cpu_active s2 - cpu_active s1 := by
      simp only [cpu_active, total, cpu_idle]
      omega
    have hAT : cpu_active s2 - cpu_active s1 ≤ total s2 - total s1 := by
      simp only [cpu_active, total, cpu_idle]
      omega
    refine ⟨((cpu_active s2 - cpu_active s1 : Int) : ℚ)
        / ((total s2 - total s1 : Int) : ℚ) * 100,
      by simp only [calculate_cpu_usage, if_neg h0], ?_, ?_⟩
    · have hTq : (0 : ℚ) < ((total s2 - total s1 : Int) : ℚ) := by exact_mod_cast hT
      have hAq : (0 : ℚ) ≤ ((cpu_active s2 - cpu_active s1 : Int) : ℚ) := by
        exact_mod_cast hA0
      positivity
    · have hTq : (0 : ℚ) < ((total s2 - total s1 : Int) : ℚ) := by exact_mod_cast hT
      have hr : ((cpu_active s2 - cpu_active s1 : Int) : ℚ)
          / ((total s2 - total s1 : Int) : ℚ) ≤ 1 := by
        rw [div_le_one hTq]
        exact_mod_cast hAT
      calc ((cpu_active s2 - cpu_active s1 : Int) : ℚ)
            / ((total s2 - total s1 : Int) : ℚ) * 100
          ≤ 1 * 100 := by
            exact mul_le_mul_of_nonneg_right hr (by norm_num)
        _ = 100 := by norm_num

/-- Witness for claim C10 at the monotone scenario-A pair. -/
theorem calculate_cpu_usage_bounded_witness :
    ∃ v : ℚ, calculate_cpu_usage (some scenarioAPrior) (some scenarioACurrent) = some v
      ∧ 0 ≤ v ∧ v ≤ 100 :=
  calculate_cpu_usage_bounded scenarioAPrior scenarioACurrent (by decide) (by decide)
    (by decide) (by decide) (by decide) (by decide) (by decide) (by decide)
